import Mathlib

/-!
Verification of the Healix medical RAG chatbot core.

This file shallowly embeds the pure control flow of the repository:
- src/ingest.py: text cleaning post-pass, filename-heuristic metadata
  classification, the per-file load loop and the chunking stage;
- src/vector_store.py: the batched index writer with its retry policy;
- src/rag_engine.py: document formatting, the history-aware retrieval step
  and the full RAG chain;
- src/chatbot.py: MedicalChatbot.get_answer and clear_history.

External collaborators (the PDF/CSV loaders, the text splitter, the
generative model calls and the vector index) are modelled as explicit
function parameters; a call that can raise is modelled as a function into
Except, and Python exception propagation is modelled by Except bind.
Python strings are modelled as Lean String, with the handful of Python
string operations the code uses (lower, strip, split, join, substring
containment, endswith, basename) implemented on the underlying character
lists so that all definitions evaluate by kernel reduction.
-/

/-- Boolean test that the pattern occurs as a contiguous substring of the
character list; models the Python expression pat in s. -/
def subOccurs (pat : List Char) : List Char → Bool
  | [] => pat.isEmpty
  | c :: rest => pat.isPrefixOf (c :: rest) || subOccurs pat rest

/-- Models the Python substring test pat in s on strings. -/
def strContains (s pat : String) : Bool := subOccurs pat.data s.data

/-- Models Python str.lower for the ASCII filenames the code classifies. -/
def lowerStr (s : String) : String := ⟨s.data.map Char.toLower⟩

/-- Characters after the last path separator; helper for basename. -/
def basenameChars (cs : List Char) : List Char :=
  cs.foldl (fun acc c => if c = '/' then [] else acc ++ [c]) []

/-- Models os.path.basename on POSIX paths: the part after the last slash. -/
def basename (p : String) : String := ⟨basenameChars p.data⟩

/-- Models Python str.endswith. -/
def endsWithStr (s suf : String) : Bool := List.isSuffixOf suf.data s.data

/-- Models os.path.join(data_dir, filename) for a directory without a
trailing separator, as used in src/ingest.py. -/
def pathJoin (dir name : String) : String := dir ++ "/" ++ name

/-- Whitespace characters stripped by Python str.strip(). -/
def isSpaceChar (c : Char) : Bool :=
  c = ' ' || c = '\t' || c = '\n' || c = '\r' || c = '\x0b' || c = '\x0c'

/-- Drop whitespace from both ends of a character list. -/
def stripChars (cs : List Char) : List Char :=
  ((cs.dropWhile isSpaceChar).reverse.dropWhile isSpaceChar).reverse

/-- Models Python str.strip() with no argument. -/
def pyStrip (s : String) : String := ⟨stripChars s.data⟩

/-- Split a character list at newline characters; models Python
str.split applied with a single newline separator. -/
def splitNlChars : List Char → List (List Char)
  | [] => [[]]
  | c :: rest =>
    if c = '\n' then [] :: splitNlChars rest
    else match splitNlChars rest with
      | h :: t => (c :: h) :: t
      | [] => [[c]]

/-- Models the Python expression splitting cleaned text into its lines. -/
def splitLines (s : String) : List String := (splitNlChars s.data).map (fun cs => ⟨cs⟩)

/-- Models joining a list of lines with newline characters. -/
def joinLines (ls : List String) : String :=
  ⟨List.intercalate ['\n'] (ls.map String.data)⟩

/-- The line predicate of clean_text_content in src/ingest.py: a line is
kept when its stripped length exceeds 3 or it strips to the empty string. -/
def keepLine (line : String) : Bool :=
  decide ((pyStrip line).length > 3) || pyStrip line == ""

/-- The custom header/footer post-pass of clean_text_content in
src/ingest.py: split into lines, filter with keepLine, join again. -/
def clean_post_pass (cleaned : String) : String :=
  joinLines ((splitLines cleaned).filter keepLine)

/-- clean_text_content from src/ingest.py. The call into the clean-text
library is an external collaborator and is passed in as libClean; the
heuristic line filter that follows it is clean_post_pass. -/
def clean_text_content (libClean : String → String) (text : String) : String :=
  clean_post_pass (libClean text)

/-- determine_metadata from src/ingest.py: filename heuristics mapping a
file path to its document type and authority rank. The substring checks
run on the lowercased basename; the csv extension check runs on the raw
file path, exactly as in the source. -/
def determine_metadata (file_path : String) : String × Nat :=
  let filename := lowerStr (basename file_path)
  if strContains filename "guideline" then ("guideline", 1)
  else if strContains filename "textbook" then ("textbook", 2)
  else if strContains filename "faq" || endsWithStr file_path ".csv" then ("faq", 3)
  else ("textbook", 2)

/-- Claim-side classifier written from the words of claim C5, which asks
for a case-insensitive extension check: identical to determine_metadata
except that the csv test is applied to the lowercased file path. -/
def classify_claim (file_path : String) : String × Nat :=
  let filename := lowerStr (basename file_path)
  if strContains filename "guideline" then ("guideline", 1)
  else if strContains filename "textbook" then ("textbook", 2)
  else if strContains filename "faq" || endsWithStr (lowerStr file_path) ".csv" then ("faq", 3)
  else ("textbook", 2)

/-- Page metadata value: PDF pages carry an integer, CSV rows are stamped
with the literal string N/A by src/ingest.py. -/
inductive PageMeta
  | pageNum (n : Nat)
  | na
deriving DecidableEq

/-- Metadata dictionary attached to every document by ingest_documents:
the source filename, the heuristic document type, the authority rank and
the page value. ingest_documents always sets all four keys. -/
structure DocMeta where
  source : String
  type : String
  rank : Nat
  page : PageMeta
deriving DecidableEq

/-- A langchain Document: page content plus its metadata dictionary. -/
structure Document where
  page_content : String
  metadata : DocMeta
deriving DecidableEq

/-- A raw unit produced by a loader before ingest touches it: content and
an optional page number (PyPDFLoader sets one, CSVLoader does not). -/
structure RawDoc where
  page_content : String
  page : Option Nat
deriving DecidableEq

/-- Translate the loader-provided optional page number into the page
metadata ingest_documents stores: a missing page becomes N/A. -/
def pageMetaOf : Option Nat → PageMeta
  | some n => PageMeta.pageNum n
  | none => PageMeta.na

/-- One iteration of the per-file loop of ingest_documents in
src/ingest.py: classify the path, dispatch on the extension (unsupported
extensions are skipped), call the loader (a load failure is caught and
yields no documents), then clean the content and attach metadata to every
loaded page or row. -/
def load_file (data_dir : String) (load : String → Except String (List RawDoc))
    (libClean : String → String) (filename : String) : List Document :=
  let file_path := pathJoin data_dir filename
  let meta := determine_metadata file_path
  if endsWithStr filename ".pdf" || endsWithStr filename ".csv" then
    match load file_path with
    | Except.ok loaded_docs =>
        loaded_docs.map (fun doc =>
          { page_content := clean_text_content libClean doc.page_content
            metadata :=
              { source := filename
                type := meta.1
                rank := meta.2
                page := pageMetaOf doc.page } })
    | Except.error _ => []
  else []

/-- The document-collection phase of ingest_documents: the per-file loop
over the directory listing, concatenating the loaded documents. -/
def load_stage (data_dir : String) (listing : List String)
    (load : String → Except String (List RawDoc))
    (libClean : String → String) : List Document :=
  listing.flatMap (load_file data_dir load libClean)

/-- Modelled from the spec: RecursiveCharacterTextSplitter.split_documents
from the langchain library (not part of src/), which splits each document
content into pieces and, per section 4.3 of the spec, copies the metadata
verbatim from the parent document onto every resulting chunk. The
splitting of the content itself is the external parameter splitContent. -/
def split_documents (splitContent : String → List String) (docs : List Document) :
    List Document :=
  docs.flatMap (fun doc =>
    (splitContent doc.page_content).map (fun piece =>
      { page_content := piece, metadata := doc.metadata }))

/-- ingest_documents from src/ingest.py: run the per-file loading loop
over the listing, then chunk the collected documents. -/
def ingest_documents (data_dir : String) (listing : List String)
    (load : String → Except String (List RawDoc))
    (libClean : String → String)
    (splitContent : String → List String) : List Document :=
  split_documents splitContent (load_stage data_dir listing load libClean)

/-- The ingest branch of main in main.py: report success with the chunk
count when the list is non-empty, otherwise print a single message that
does not separate the empty-directory case from the all-loads-failed
case. -/
def ingest_report (docs : List Document) : String :=
  if docs.isEmpty then "No documents found or failed to load."
  else "Successfully indexed " ++ toString docs.length ++ " chunks."

/-- The fixed embedding batch size of index_documents in
src/vector_store.py. -/
def BATCH_SIZE : Nat := 32

/-- The fixed retry delay in seconds used by index_documents in
src/vector_store.py before its single retry. -/
def RETRY_DELAY_SECONDS : Nat := 5

/-- Fuelled translation of the batching loop of index_documents, which
iterates over range(0, total_docs, BATCH_SIZE) taking the slice
documents[i : i + BATCH_SIZE] each time. The fuel bounds the number of
iterations; toBatches supplies the list length, which always suffices. -/
def toBatchesFuel {α : Type} : Nat → List α → List (List α)
  | _, [] => []
  | fuel + 1, l => l.take BATCH_SIZE :: toBatchesFuel fuel (l.drop BATCH_SIZE)
  | 0, _ => []

/-- The ordered list of slices documents[i : i + BATCH_SIZE] produced by
the batching loop of index_documents. -/
def toBatches {α : Type} (l : List α) : List (List α) := toBatchesFuel l.length l

/-- Outcome of indexing one batch in index_documents: the first write
succeeded, or the first write failed and the single retry succeeded, or
both attempts failed and the loss of the batch is logged. -/
inductive BatchOutcome
  | firstTry
  | retried
  | lost
deriving DecidableEq

/-- The try-except-retry block of index_documents for batch number i:
attempt 0 is the initial write; on failure the code sleeps for
RETRY_DELAY_SECONDS and makes attempt 1; a second failure only logs. The
external success or failure of each write is the oracle fail. -/
def attempt (fail : Nat → Nat → Bool) (i : Nat) : BatchOutcome :=
  if fail i 0 then
    if fail i 1 then BatchOutcome.lost else BatchOutcome.retried
  else BatchOutcome.firstTry

/-- The batch loop of index_documents: every batch is processed in order
regardless of earlier failures, and each is paired with its outcome. -/
def processBatches (fail : Nat → Nat → Bool) :
    Nat → List (List Document) → List (List Document × BatchOutcome)
  | _, [] => []
  | i, b :: rest => (b, attempt fail i) :: processBatches fail (i + 1) rest

/-- index_documents from src/vector_store.py, abstracted over the write
oracle: slice the documents into consecutive batches of at most
BATCH_SIZE and run the retry-once-then-log policy on each. -/
def index_documents (fail : Nat → Nat → Bool) (documents : List Document) :
    List (List Document × BatchOutcome) :=
  processBatches fail 0 (toBatches documents)

/-- A chat message as built by MedicalChatbot.get_answer when converting
its (human, ai) history pairs for langchain. -/
inductive Msg
  | human (content : String)
  | ai (content : String)
deriving DecidableEq

/-- The external collaborators of the RAG chain in src/rag_engine.py: the
question rephrasing chain, the vector store retriever and the answering
chain. Each call may raise, modelled by Except. -/
structure RagCollab where
  rephrase_chain : String → List Msg → Except String String
  retriever : String → Except String (List Document)
  answer_chain : String → List Msg → String → Except String String

/-- Render the page metadata the way the f-string of format_docs does. -/
def pageStr : PageMeta → String
  | PageMeta.pageNum n => toString n
  | PageMeta.na => "N/A"

/-- Models the Python call content.replace of a newline by a space. -/
def replaceNl (s : String) : String :=
  ⟨s.data.map (fun c => if c = '\n' then ' ' else c)⟩

/-- format_docs from src/rag_engine.py: render each retrieved document as
a source block and join the blocks with a blank line. The metadata
defaults of the source are never needed here because ingest_documents
sets every key on every document. -/
def format_docs (docs : List Document) : String :=
  String.intercalate "\n\n" (docs.map (fun doc =>
    "Source: " ++ doc.metadata.source ++ " (Page " ++ pageStr doc.metadata.page ++
      ") [Type: " ++ doc.metadata.type ++ ", Rank: " ++ toString doc.metadata.rank ++
      "]\n" ++ "Content: " ++ replaceNl doc.page_content ++ "\n"))

/-- The history conversion loop at the top of MedicalChatbot.get_answer:
each (human, ai) pair becomes a HumanMessage followed by an AIMessage. -/
def lc_history (chat_history : List (String × String)) : List Msg :=
  chat_history.flatMap (fun p => [Msg.human p.1, Msg.ai p.2])

/-- The nested function history_aware_retrieve of get_rag_chain in
src/rag_engine.py: with empty history the original question goes straight
to the retriever with no rephrase call; with non-empty history the
rephrase chain runs first and any exception it raises propagates, then
the retriever is invoked on the rephrased question. -/
def history_aware_retrieve (E : RagCollab) (question : String)
    (chat_history : List Msg) : Except String (List Document) :=
  if chat_history.isEmpty then E.retriever question
  else (E.rephrase_chain question chat_history).bind E.retriever

/-- The dictionary returned by the full chain of get_rag_chain. -/
structure ChainOutput where
  input : String
  chat_history : List Msg
  context : List Document
  answer : String
deriving DecidableEq

/-- The nested function running the full chain in get_rag_chain: retrieve
with optional rephrasing, format the documents, generate the answer, and
return the result dictionary. Exceptions from any step propagate. -/
def full_chain (E : RagCollab) (input : String) (chat_history : List Msg) :
    Except String ChainOutput :=
  (history_aware_retrieve E input chat_history).bind (fun docs =>
    (E.answer_chain input chat_history (format_docs docs)).bind (fun answer =>
      Except.ok
        { input := input
          chat_history := chat_history
          context := docs
          answer := answer }))

/-- The fixed apologetic fallback string returned by the except branch of
MedicalChatbot.get_answer in src/chatbot.py. -/
def fallback_answer : String :=
  "I apologize, but I encountered an error while processing your request. Please try again."

/-- MedicalChatbot.get_answer from src/chatbot.py, returning the answer
together with the updated chat history. An empty query short-circuits to
an empty answer; otherwise the chain runs inside try-except: on success
the (query, answer) turn is appended, on any exception the fallback
string is returned and the history is untouched. -/
def get_answer (E : RagCollab) (chat_history : List (String × String))
    (query : String) : String × List (String × String) :=
  if query = "" then ("", chat_history)
  else
    match full_chain E query (lc_history chat_history) with
    | Except.ok response => (response.answer, chat_history ++ [(query, response.answer)])
    | Except.error _ => (fallback_answer, chat_history)

/-- MedicalChatbot.clear_history from src/chatbot.py. -/
def clear_history (_chat_history : List (String × String)) : List (String × String) :=
  []

/-- Collaborators for which every call succeeds: the rephrase chain is
the identity on the question, retrieval returns no documents and the
answer chain returns a fixed string. -/
def ragOkEx : RagCollab :=
  { rephrase_chain := fun q _ => Except.ok q
    retriever := fun _ => Except.ok []
    answer_chain := fun _ _ _ => Except.ok "ANSWER" }

/-- Collaborators whose rephrase chain always raises while retrieval and
answering would succeed. -/
def ragRephraseDownEx : RagCollab :=
  { rephrase_chain := fun _ _ => Except.error "rephrase model unavailable"
    retriever := fun _ => Except.ok []
    answer_chain := fun _ _ _ => Except.ok "NORMAL ANSWER" }

/-- Collaborators whose retriever always raises while rephrasing and
answering would succeed. -/
def ragRetrieverDownEx : RagCollab :=
  { rephrase_chain := fun q _ => Except.ok q
    retriever := fun _ => Except.error "index query failed"
    answer_chain := fun _ _ _ => Except.ok "EMPTY CONTEXT ANSWER" }

/-- A loader that always succeeds with a single one-page raw document. -/
def loadOneEx : String → Except String (List RawDoc) :=
  fun _ => Except.ok [{ page_content := "hello world content", page := some 0 }]

/-- A loader that always raises, as a corrupt file would. -/
def loadFailEx : String → Except String (List RawDoc) :=
  fun _ => Except.error "corrupt file"

/-- Identity stand-in for the external clean-text library call. -/
def cleanIdEx : String → String := fun s => s

/-- A content splitter that keeps each content whole as a single chunk. -/
def splitWholeEx : String → List String := fun s => [s]

/-- The chunk that ingesting guideline_a.pdf through loadOneEx produces. -/
def chunkEx : Document :=
  { page_content := "hello world content"
    metadata :=
      { source := "guideline_a.pdf"
        type := "guideline"
        rank := 1
        page := PageMeta.pageNum 0 } }

/-- A one-chunk document used to exercise the index batching loop. -/
def docEx : Document :=
  { page_content := "x"
    metadata := { source := "s", type := "textbook", rank := 2, page := PageMeta.na } }

/-- A write oracle under which only the very first attempt of batch 0
fails, so batch 0 succeeds on its retry. -/
def failRetryEx : Nat → Nat → Bool := fun i a => decide (i = 0) && decide (a = 0)

/-- Helper: converting a non-empty pair history yields a non-empty
langchain message list, so the rephrase branch is taken. -/
theorem lc_history_isEmpty_false (hist : List (String × String)) (hh : hist ≠ []) :
    (lc_history hist).isEmpty = false := by
  cases hist with
  | nil => exact absurd rfl hh
  | cons p t => rfl

/-- C5 counterexample: the claim asks for a case-insensitive extension
check, but determine_metadata tests endswith on the raw path, so the
upper-case path data.CSV is classified as the default textbook tier while
the claim-side classifier assigns the faq tier. -/
theorem determine_metadata_csv_case_counterexample :
    determine_metadata "data.CSV" = ("textbook", 2) ∧
    classify_claim "data.CSV" = ("faq", 3) ∧
    determine_metadata "data.CSV" ≠ classify_claim "data.CSV" :=
  ⟨by decide, by decide, by decide⟩

/-- C5 amended: determine_metadata classifies by case-insensitive
substring matching on the basename, except that the csv extension test is
case-sensitive on the raw path: guideline beats textbook beats faq or a
literal .csv suffix, and everything else defaults to textbook rank 2. -/
theorem determine_metadata_cases (p : String) :
    (strContains (lowerStr (basename p)) "guideline" = true →
      determine_metadata p = ("guideline", 1)) ∧
    (strContains (lowerStr (basename p)) "guideline" = false →
      strContains (lowerStr (basename p)) "textbook" = true →
      determine_metadata p = ("textbook", 2)) ∧
    (strContains (lowerStr (basename p)) "guideline" = false →
      strContains (lowerStr (basename p)) "textbook" = false →
      (strContains (lowerStr (basename p)) "faq" = true ∨ endsWithStr p ".csv" = true) →
      determine_metadata p = ("faq", 3)) ∧
    (strContains (lowerStr (basename p)) "guideline" = false →
      strContains (lowerStr (basename p)) "textbook" = false →
      strContains (lowerStr (basename p)) "faq" = false →
      endsWithStr p ".csv" = false →
      determine_metadata p = ("textbook", 2)) := by
  refine ⟨?_, ?_, ?_, ?_⟩
  · intro h1
    simp [determine_metadata, h1]
  · intro h1 h2
    simp [determine_metadata, h1, h2]
  · intro h1 h2 h3
    rcases h3 with h3 | h3 <;> simp [determine_metadata, h1, h2, h3]
  · intro h1 h2 h3 h4
    simp [determine_metadata, h1, h2, h3, h4]

/-- C5 witness: the amended classification evaluated on concrete paths
covering the guideline branch and the lower-case csv branch. -/
theorem determine_metadata_cases_witness :
    determine_metadata "data/guideline_x.pdf" = ("guideline", 1) ∧
    determine_metadata "data/notes.csv" = ("faq", 3) :=
  ⟨(determine_metadata_cases "data/guideline_x.pdf").1 (by decide),
   (determine_metadata_cases "data/notes.csv").2.2.1 (by decide) (by decide)
     (Or.inr (by decide))⟩

/-- C9 counterexample: a line of three spaces is non-empty yet consists
only of whitespace; it strips to the empty string, so the post-pass keeps
it, while the claim says such a line is dropped. -/
theorem clean_post_pass_whitespace_counterexample :
    pyStrip "   " = "" ∧
    ("   " : String) ≠ "" ∧
    clean_post_pass "abcde\n   \nwxyz" = "abcde\n   \nwxyz" ∧
    clean_post_pass "abcde\n   \nwxyz" ≠ "abcde\nwxyz" :=
  ⟨by decide, by decide, by decide, by decide⟩

/-- C9 amended: the post-pass joins back exactly those lines, in their
original order, whose stripped form is empty or longer than 3
characters; equivalently it drops exactly the lines whose stripped form
is non-empty with length at most 3, and lines that strip to the empty
string, whitespace-only lines included, are kept. -/
theorem clean_post_pass_line_filter (text : String) :
    clean_post_pass text = joinLines ((splitLines text).filter keepLine) ∧
    List.Sublist ((splitLines text).filter keepLine) (splitLines text) ∧
    ∀ line : String,
      line ∈ (splitLines text).filter keepLine ↔
        line ∈ splitLines text ∧ (pyStrip line = "" ∨ 3 < (pyStrip line).length) := by
  refine ⟨rfl, List.filter_sublist _, ?_⟩
  intro line
  rw [List.mem_filter]
  constructor
  · rintro ⟨hmem, hkeep⟩
    refine ⟨hmem, ?_⟩
    rcases Bool.or_eq_true_iff.mp hkeep with h | h
    · exact Or.inr (of_decide_eq_true h)
    · exact Or.inl (by exact eq_of_beq h)
  · rintro ⟨hmem, hprop⟩
    refine ⟨hmem, ?_⟩
    rcases hprop with h | h
    · exact Bool.or_eq_true_iff.mpr (Or.inr (by simp [h]))
    · exact Bool.or_eq_true_iff.mpr (Or.inl (decide_eq_true h))

/-- C9 witness: the filter characterization applied to a concrete text
whose middle line is whitespace-only and is kept. -/
theorem clean_post_pass_line_filter_witness :
    ("   " : String) ∈ (splitLines "abcde\n   \nwxyz").filter keepLine :=
  ((clean_post_pass_line_filter "abcde\n   \nwxyz").2.2 "   ").mpr
    ⟨by decide, Or.inl (by decide)⟩

/-- C6: an empty question short-circuits: the answer is the empty string
and the history, hence the turn count, is unchanged whatever the
collaborators do, so no model or retrieval call can influence the result;
and after clear_history the stored history is empty, so the next history
aware retrieval takes the empty-history path and queries the retriever
with the question unchanged. -/
theorem empty_question_and_reset (E : RagCollab)
    (hist : List (String × String)) (q : String) :
    get_answer E hist "" = ("", hist) ∧
    clear_history hist = [] ∧
    history_aware_retrieve E q (lc_history (clear_history hist)) = E.retriever q :=
  ⟨rfl, rfl, rfl⟩

/-- C7: with empty history the rewriter is the identity, the retriever
receives the question unchanged and the answer does not depend on the
rephrase collaborator at all; with non-empty history the retrieval step
is exactly the rephrase call followed by the retriever, so the rephrase
model is invoked. -/
theorem history_aware_retrieve_rewrite_policy (E : RagCollab) (q : String) :
    history_aware_retrieve E q [] = E.retriever q ∧
    ∀ h : List Msg, h ≠ [] →
      history_aware_retrieve E q h = (E.rephrase_chain q h).bind E.retriever := by
  refine ⟨rfl, ?_⟩
  intro h hne
  cases h with
  | nil => exact absurd rfl hne
  | cons m t => rfl

/-- C7 witness: the non-empty-history branch evaluated on a concrete
one-message history. -/
theorem history_aware_retrieve_rewrite_policy_witness :
    history_aware_retrieve ragOkEx "q" [Msg.human "a"]
      = (ragOkEx.rephrase_chain "q" [Msg.human "a"]).bind ragOkEx.retriever :=
  (history_aware_retrieve_rewrite_policy ragOkEx "q").2 [Msg.human "a"] (by decide)

/-- C1 counterexample: history is non-empty, the rephrase model call
raises, and retrieval and synthesis would both succeed (synthesis always
answers NORMAL ANSWER); the claim predicts a normal turn answering with
the original question, but get_answer returns the fixed apologetic
fallback and appends nothing. -/
theorem rewrite_failure_counterexample :
    get_answer ragRephraseDownEx [("hi", "hello")] "and the dosage?"
      = (fallback_answer, [("hi", "hello")]) ∧
    fallback_answer ≠ "NORMAL ANSWER" :=
  ⟨rfl, by decide⟩

/-- C1 amended: when history is non-empty and the rephrase model call
fails, the exception propagates out of the rewrite step to the catch-all
of get_answer, so the turn returns the fixed apologetic fallback message
and leaves the history unchanged; the original question is not retried. -/
theorem rewrite_failure_yields_fallback (E : RagCollab)
    (hist : List (String × String)) (q e : String)
    (hq : q ≠ "") (hh : hist ≠ [])
    (hre : E.rephrase_chain q (lc_history hist) = Except.error e) :
    get_answer E hist q = (fallback_answer, hist) := by
  have hne : (lc_history hist).isEmpty = false := lc_history_isEmpty_false hist hh
  unfold get_answer full_chain history_aware_retrieve
  rw [if_neg hq, hne]
  rw [hre]
  rfl

/-- C1 witness: the amended fallback behaviour on concrete collaborators
whose rephrase chain raises. -/
theorem rewrite_failure_yields_fallback_witness :
    get_answer ragRephraseDownEx [("hi", "hello")] "and the dosage?"
      = (fallback_answer, [("hi", "hello")]) :=
  rewrite_failure_yields_fallback ragRephraseDownEx [("hi", "hello")]
    "and the dosage?" "rephrase model unavailable" (by decide) (by decide) rfl

/-- C2 counterexample: the retriever raises while synthesis would succeed
with EMPTY CONTEXT ANSWER; the claim predicts an empty RetrievalResult
followed by synthesis over empty context, but the retrieval step actually
propagates the error and get_answer returns the apologetic fallback with
no turn appended. -/
theorem retrieval_failure_counterexample :
    history_aware_retrieve ragRetrieverDownEx "q" []
      = Except.error "index query failed" ∧
    get_answer ragRetrieverDownEx [] "q" = (fallback_answer, []) ∧
    fallback_answer ≠ "EMPTY CONTEXT ANSWER" :=
  ⟨rfl, rfl, by decide⟩

/-- C2 amended: when the retrieval step fails, the exception propagates
to the catch-all of get_answer, so the turn is aborted with the fixed
apologetic fallback message and the history is unchanged; the failure is
not converted into an empty retrieval result. -/
theorem retrieval_failure_aborts_turn (E : RagCollab)
    (hist : List (String × String)) (q e : String) (hq : q ≠ "")
    (hret : history_aware_retrieve E q (lc_history hist) = Except.error e) :
    get_answer E hist q = (fallback_answer, hist) := by
  unfold get_answer full_chain
  rw [if_neg hq, hret]
  rfl

/-- C2 witness: the amended abort behaviour on concrete collaborators
whose retriever raises. -/
theorem retrieval_failure_aborts_turn_witness :
    get_answer ragRetrieverDownEx [] "q" = (fallback_answer, []) :=
  retrieval_failure_aborts_turn ragRetrieverDownEx [] "q" "index query failed"
    (by decide) rfl

/-- C3: get_answer is a total function into answer strings (no exception
escapes, since every pipeline failure is consumed by the catch-all) and
the history update is atomic per turn: the returned history is either
exactly the old history, or the old history with exactly the one
(question, answer) turn appended; moreover any pipeline error leaves the
history untouched and returns the fallback, and a pipeline success
appends exactly the answered turn. -/
theorem get_answer_total_and_atomic (E : RagCollab)
    (hist : List (String × String)) (q : String) :
    ((get_answer E hist q).2 = hist ∨
      (get_answer E hist q).2 = hist ++ [(q, (get_answer E hist q).1)]) ∧
    (∀ e, full_chain E q (lc_history hist) = Except.error e → q ≠ "" →
      get_answer E hist q = (fallback_answer, hist)) ∧
    (∀ response, full_chain E q (lc_history hist) = Except.ok response → q ≠ "" →
      get_answer E hist q = (response.answer, hist ++ [(q, response.answer)])) := by
  refine ⟨?_, ?_, ?_⟩
  · unfold get_answer
    by_cases hq : q = ""
    · rw [if_pos hq]
      exact Or.inl rfl
    · rw [if_neg hq]
      cases hfc : full_chain E q (lc_history hist) with
      | ok response => exact Or.inr rfl
      | error e => exact Or.inl rfl
  · intro e he hq
    unfold get_answer
    rw [if_neg hq, he]
  · intro response hr hq
    unfold get_answer
    rw [if_neg hq, hr]

/-- C3 witness: the success branch of the atomicity theorem evaluated on
concrete all-success collaborators. -/
theorem get_answer_total_and_atomic_witness :
    get_answer ragOkEx [] "q" = ("ANSWER", [("q", "ANSWER")]) :=
  (get_answer_total_and_atomic ragOkEx [] "q").2.2
    { input := "q", chat_history := [], context := [], answer := "ANSWER" }
    rfl (by decide)

/-- C4: every chunk produced by ingest_documents inherits its metadata
verbatim from a document of the loading stage (chunking never recomputes
it), and that document carries exactly the source filename, the
filename-heuristic type and rank of its originating file, and the page
value the loader assigned (N/A when the loader provided none), with the
content having passed through the cleaner. -/
theorem chunk_metadata_provenance (data_dir : String) (listing : List String)
    (load : String → Except String (List RawDoc))
    (libClean : String → String) (splitContent : String → List String) :
    ∀ c ∈ ingest_documents data_dir listing load libClean splitContent,
      ∃ d ∈ load_stage data_dir listing load libClean,
        c.metadata = d.metadata ∧
        ∃ filename ∈ listing,
          d.metadata.source = filename ∧
          (d.metadata.type, d.metadata.rank)
            = determine_metadata (pathJoin data_dir filename) ∧
          ∃ loaded_docs raw,
            load (pathJoin data_dir filename) = Except.ok loaded_docs ∧
            raw ∈ loaded_docs ∧
            d.metadata.page = pageMetaOf raw.page ∧
            d.page_content = clean_text_content libClean raw.page_content := by
  intro c hc
  simp only [ingest_documents, split_documents, List.mem_flatMap, List.mem_map] at hc
  obtain ⟨d, hd, piece, hpiece, rfl⟩ := hc
  refine ⟨d, hd, rfl, ?_⟩
  simp only [load_stage, List.mem_flatMap] at hd
  obtain ⟨filename, hfile, hdf⟩ := hd
  refine ⟨filename, hfile, ?_⟩
  simp only [load_file] at hdf
  by_cases hext : (endsWithStr filename ".pdf" || endsWithStr filename ".csv") = true
  · rw [if_pos hext] at hdf
    cases hload : load (pathJoin data_dir filename) with
    | ok loaded_docs =>
        rw [hload] at hdf
        simp only [List.mem_map] at hdf
        obtain ⟨raw, hraw, rfl⟩ := hdf
        exact ⟨rfl, rfl, loaded_docs, raw, rfl, hraw, rfl, rfl⟩
    | error err =>
        rw [hload] at hdf
        simp at hdf
  · rw [if_neg hext] at hdf
    simp at hdf

/-- C4 witness: the provenance theorem instantiated at a concrete
one-file ingestion run and the concrete chunk it produces. -/
theorem chunk_metadata_provenance_witness :
    ∃ d ∈ load_stage "data" ["guideline_a.pdf"] loadOneEx cleanIdEx,
      chunkEx.metadata = d.metadata ∧
      ∃ filename ∈ ["guideline_a.pdf"],
        d.metadata.source = filename ∧
        (d.metadata.type, d.metadata.rank)
          = determine_metadata (pathJoin "data" filename) ∧
        ∃ loaded_docs raw,
          loadOneEx (pathJoin "data" filename) = Except.ok loaded_docs ∧
          raw ∈ loaded_docs ∧
          d.metadata.page = pageMetaOf raw.page ∧
          d.page_content = clean_text_content cleanIdEx raw.page_content :=
  chunk_metadata_provenance "data" ["guideline_a.pdf"] loadOneEx cleanIdEx
    splitWholeEx chunkEx (by decide)

/-- C8 counterexample: an empty directory and a directory with a single
document that fails to load yield the same empty chunk list and the same
report string from the CLI entry point, so the two outcomes are not
observably different to the caller, contrary to the claim. -/
theorem ingest_outcomes_counterexample :
    ingest_documents "data" [] loadFailEx cleanIdEx splitWholeEx = [] ∧
    ingest_documents "data" ["doc.pdf"] loadFailEx cleanIdEx splitWholeEx = [] ∧
    ingest_report (ingest_documents "data" [] loadFailEx cleanIdEx splitWholeEx)
      = ingest_report (ingest_documents "data" ["doc.pdf"] loadFailEx cleanIdEx splitWholeEx) :=
  ⟨rfl, rfl, rfl⟩

/-- C8 amended: ingest_documents returns the chunk list, whose length is
the indexed count reported by main, but the no-documents-found case and
the all-documents-failed case are not distinguishable: whenever every
listed file fails to load, the result is the same empty list, and the
report printed by main is the same message as for an empty directory. -/
theorem all_load_failures_indistinguishable (data_dir : String)
    (listing : List String) (load : String → Except String (List RawDoc))
    (libClean : String → String) (splitContent : String → List String)
    (hfail : ∀ f ∈ listing, ∃ e, load (pathJoin data_dir f) = Except.error e) :
    ingest_documents data_dir listing load libClean splitContent = [] ∧
    ingest_report (ingest_documents data_dir listing load libClean splitContent)
      = ingest_report (ingest_documents data_dir [] load libClean splitContent) := by
  have hstage : ∀ l : List String,
      (∀ f ∈ l, ∃ e, load (pathJoin data_dir f) = Except.error e) →
      load_stage data_dir l load libClean = [] := by
    intro l
    induction l with
    | nil => intro _; rfl
    | cons f t ih =>
        intro hall
        obtain ⟨e, he⟩ := hall f (List.mem_cons_self f t)
        have hrest := ih (fun g hg => hall g (List.mem_cons_of_mem f hg))
        have hfileEmpty : load_file data_dir load libClean f = [] := by
          simp only [load_file]
          rw [he]
          split <;> rfl
        simp only [load_stage, List.flatMap_cons] at hrest ⊢
        rw [hfileEmpty, hrest]
        rfl

  have hres : ingest_documents data_dir listing load libClean splitContent = [] := by
    unfold ingest_documents
    rw [hstage listing hfail]
    rfl
  refine ⟨hres, ?_⟩
  rw [hres]
  rfl

/-- C8 witness: the amended indistinguishability applied to a concrete
single-file listing whose only file fails to load. -/
theorem all_load_failures_indistinguishable_witness :
    ingest_documents "data" ["doc.pdf"] loadFailEx cleanIdEx splitWholeEx = [] ∧
    ingest_report (ingest_documents "data" ["doc.pdf"] loadFailEx cleanIdEx splitWholeEx)
      = ingest_report (ingest_documents "data" [] loadFailEx cleanIdEx splitWholeEx) :=
  all_load_failures_indistinguishable "data" ["doc.pdf"] loadFailEx cleanIdEx
    splitWholeEx (fun _ _ => ⟨"corrupt file", rfl⟩)

/-- Helper: with enough fuel the batching slices concatenate back to the
original document list, so batching loses and reorders nothing. -/
theorem toBatchesFuel_flatten {α : Type} :
    ∀ (fuel : Nat) (l : List α), l.length ≤ fuel →
      (toBatchesFuel fuel l).flatten = l := by
  intro fuel
  induction fuel with
  | zero =>
      intro l hl
      have hnil : l = [] := List.eq_nil_of_length_eq_zero (Nat.le_zero.mp hl)
      subst hnil
      rfl
  | succ n ih =>
      intro l hl
      cases l with
      | nil => rfl
      | cons a t =>
          have hdrop : ((a :: t).drop BATCH_SIZE).length ≤ n := by
            simp only [List.length_drop, BATCH_SIZE]
            simp only [List.length_cons] at hl ⊢
            omega
          show (a :: t).take BATCH_SIZE ++ (toBatchesFuel n ((a :: t).drop BATCH_SIZE)).flatten
              = a :: t
          rw [ih _ hdrop, List.take_append_drop]

/-- Helper: every batch the fuelled slicer produces has length at most
BATCH_SIZE. -/
theorem toBatchesFuel_sizes {α : Type} :
    ∀ (fuel : Nat) (l : List α),
      (toBatchesFuel fuel l).all (fun b => decide (b.length ≤ BATCH_SIZE)) = true := by
  intro fuel
  induction fuel with
  | zero => intro l; cases l <;> rfl
  | succ n ih =>
      intro l
      cases l with
      | nil => rfl
      | cons a t =>
          show ((a :: t).take BATCH_SIZE :: toBatchesFuel n ((a :: t).drop BATCH_SIZE)).all
              (fun b => decide (b.length ≤ BATCH_SIZE)) = true
          rw [List.all_cons, Bool.and_eq_true]
          refine ⟨decide_eq_true ?_, ih _⟩
          rw [List.length_take]
          exact Nat.min_le_left _ _

/-- Helper: the batch loop processes exactly the given batches, pairing
each with an outcome and dropping none of them. -/
theorem processBatches_map_fst (fail : Nat → Nat → Bool) :
    ∀ (bs : List (List Document)) (k : Nat),
      (processBatches fail k bs).map Prod.fst = bs := by
  intro bs
  induction bs with
  | nil => intro k; rfl
  | cons b rest ih =>
      intro k
      show List.map Prod.fst ((b, attempt fail k) :: processBatches fail (k + 1) rest)
          = b :: rest
      rw [List.map_cons, ih (k + 1)]

/-- Helper: batch number i of the loop is the i-th slice paired with the
outcome of the attempt policy at index i. -/
theorem processBatches_getElem? (fail : Nat → Nat → Bool) :
    ∀ (bs : List (List Document)) (k i : Nat),
      (processBatches fail k bs).get? i
        = (bs.get? i).map (fun b => (b, attempt fail (k + i))) := by
  intro bs
  induction bs with
  | nil => intro k i; cases i <;> rfl
  | cons b rest ih =>
      intro k i
      cases i with
      | zero => rfl
      | succ j =>
          show (processBatches fail (k + 1) rest).get? j
              = (rest.get? j).map (fun b => (b, attempt fail (k + (j + 1))))
          rw [ih (k + 1) j]
          have harith : k + 1 + j = k + (j + 1) := by omega
          rw [harith]

/-- C10: index_documents partitions the chunk sequence in order into
consecutive batches that concatenate back to the input and each hold at
most BATCH_SIZE documents; every batch is processed whatever the write
oracle does (no failure aborts the loop), batch i is paired with the
outcome of the attempt policy at i, and that policy makes exactly one
retry: the outcome depends only on attempts 0 and 1 of batch i, with a
first-try success, a retry success after the fixed RETRY_DELAY_SECONDS
pause, or a logged loss when both attempts fail; the cap is 32 and the
delay is 5 seconds. -/
theorem index_documents_batch_policy (documents : List Document)
    (fail : Nat → Nat → Bool) :
    ((index_documents fail documents).map Prod.fst).flatten = documents ∧
    ((index_documents fail documents).map Prod.fst).all
      (fun b => decide (b.length ≤ BATCH_SIZE)) = true ∧
    (index_documents fail documents).map Prod.fst = toBatches documents ∧
    (∀ i : Nat, (index_documents fail documents).get? i
      = ((toBatches documents).get? i).map (fun b => (b, attempt fail i))) ∧
    (∀ i : Nat,
      (attempt fail i = BatchOutcome.firstTry ↔ fail i 0 = false) ∧
      (attempt fail i = BatchOutcome.retried ↔ fail i 0 = true ∧ fail i 1 = false) ∧
      (attempt fail i = BatchOutcome.lost ↔ fail i 0 = true ∧ fail i 1 = true)) ∧
    BATCH_SIZE = 32 ∧ RETRY_DELAY_SECONDS = 5 := by
  have hfst : (index_documents fail documents).map Prod.fst = toBatches documents :=
    processBatches_map_fst fail (toBatches documents) 0
  refine ⟨?_, ?_, hfst, ?_, ?_, rfl, rfl⟩
  · rw [hfst]
    exact toBatchesFuel_flatten documents.length documents (Nat.le_refl _)
  · rw [hfst]
    exact toBatchesFuel_sizes documents.length documents
  · intro i
    have h := processBatches_getElem? fail (toBatches documents) 0 i
    rw [Nat.zero_add] at h
    exact h
  · intro i
    cases h0 : fail i 0 <;> cases h1 : fail i 1 <;> simp [attempt, h0, h1]

/-- C10 witness: the batching theorem evaluated on a one-document list
under a write oracle that fails only the very first attempt, so the
single batch succeeds on its retry and nothing is lost. -/
theorem index_documents_batch_policy_witness :
    ((index_documents failRetryEx [docEx]).map Prod.fst).flatten = [docEx] ∧
    (index_documents failRetryEx [docEx]).get? 0
      = some ([docEx], BatchOutcome.retried) := by
  refine ⟨(index_documents_batch_policy [docEx] failRetryEx).1, ?_⟩
  have h := (index_documents_batch_policy [docEx] failRetryEx).2.2.2.1 0
  rw [h]
  decide
